import Mathlib

/-!
Verification of the ArduinoAnalogJoy calibration and normalization engine
(src/joy.py) against its specification.  Python floats are modelled as
rationals, Python exceptions as an explicit error type, and the stateful
pieces of the code as explicit state passing.
-/

namespace ArduinoJoy

/-- Modelled from the spec: the `Interval` data type of the repository
module `interval` (imported by src/joy.py but not under src/), spec section 3:
a closed numeric range with two bounds `left` and `right`.  Only the two
fields are needed by the code verified here. -/
structure Interval where
  left : ℚ
  right : ℚ
deriving DecidableEq

/-- The Python exceptions that the code in src/joy.py can raise, plus the
ones raised by the builtins it calls.  `RuntimeError "Joy Protocol error"`
is the realization of the specification error `ProtocolMismatch`. -/
inductive PyError where
  | runtimeError (msg : String)
  | fileNotFoundError
  | valueError
  | typeError
  | zeroDivisionError
deriving DecidableEq

/-- Mirrors `calc_f` (src/joy.py lines 13-29): the piecewise dead-zone
position mapping.  `inter1` is the travel interval (full range), `inter2`
the dead-zone interval, exactly as in the source. -/
def calc_f (inter1 inter2 : Interval) (val : ℚ) : ℚ :=
  if val < inter1.left then -1
  else if val < inter2.left then -(val - inter2.left) / (inter1.left - inter2.left)
  else if val < inter2.right then 0
  else if val < inter1.right then (val - inter2.right) / (inter1.right - inter2.right)
  else 1

/-- `calc_f` with Python division semantics made explicit: a division whose
denominator is zero raises `ZeroDivisionError` instead of returning a value.
Branch structure identical to src/joy.py lines 13-29. -/
def calc_fChecked (inter1 inter2 : Interval) (val : ℚ) : Except PyError ℚ :=
  if val < inter1.left then .ok (-1)
  else if val < inter2.left then
    if inter1.left - inter2.left = 0 then .error .zeroDivisionError
    else .ok (-(val - inter2.left) / (inter1.left - inter2.left))
  else if val < inter2.right then .ok 0
  else if val < inter1.right then
    if inter1.right - inter2.right = 0 then .error .zeroDivisionError
    else .ok ((val - inter2.right) / (inter1.right - inter2.right))
  else .ok 1

/-- Dividing by a fixed negative denominator reverses the order. -/
lemma div_le_div_of_neg_den {a b c : ℚ} (hc : c < 0) (h : b ≤ a) : a / c ≤ b / c := by
  rw [div_eq_mul_inv, div_eq_mul_inv]
  exact mul_le_mul_of_nonpos_right h (inv_nonpos.mpr hc.le)

/-- Dividing by a fixed positive denominator preserves the order. -/
lemma div_le_div_of_pos_den {a b c : ℚ} (hc : 0 < c) (h : a ≤ b) : a / c ≤ b / c := by
  rw [div_eq_mul_inv, div_eq_mul_inv]
  exact mul_le_mul_of_nonneg_right h (inv_nonneg.mpr hc.le)

lemma calc_f_of_lt_left (t d : Interval) (v : ℚ) (h : v < t.left) :
    calc_f t d v = -1 := by
  unfold calc_f
  rw [if_pos h]

lemma calc_f_rampL (t d : Interval) (v : ℚ) (h1 : t.left ≤ v) (h2 : v < d.left) :
    calc_f t d v = -(v - d.left) / (t.left - d.left) := by
  unfold calc_f
  rw [if_neg (not_lt.2 h1), if_pos h2]

lemma calc_f_zero (t d : Interval) (v : ℚ) (hl : t.left ≤ d.left)
    (h1 : d.left ≤ v) (h2 : v < d.right) : calc_f t d v = 0 := by
  unfold calc_f
  rw [if_neg (not_lt.2 (le_trans hl h1)), if_neg (not_lt.2 h1), if_pos h2]

lemma calc_f_rampR (t d : Interval) (v : ℚ) (hl : t.left ≤ d.left)
    (hm : d.left ≤ d.right) (h1 : d.right ≤ v) (h2 : v < t.right) :
    calc_f t d v = (v - d.right) / (t.right - d.right) := by
  unfold calc_f
  rw [if_neg (not_lt.2 (by linarith)), if_neg (not_lt.2 (by linarith)),
    if_neg (not_lt.2 h1), if_pos h2]

lemma calc_f_one (t d : Interval) (v : ℚ) (hl : t.left ≤ d.left)
    (hm : d.left ≤ d.right) (hr : d.right ≤ t.right) (h : t.right ≤ v) :
    calc_f t d v = 1 := by
  unfold calc_f
  rw [if_neg (not_lt.2 (by linarith)), if_neg (not_lt.2 (by linarith)),
    if_neg (not_lt.2 (by linarith)), if_neg (not_lt.2 h)]

/-- The left ramp value lies in `[-1, 0]` whenever its region is inhabited. -/
lemma rampL_bounds {tl dl v : ℚ} (h1 : tl ≤ v) (h2 : v < dl) :
    -1 ≤ -(v - dl) / (tl - dl) ∧ -(v - dl) / (tl - dl) ≤ 0 := by
  have hneg : tl - dl < 0 := by linarith
  constructor
  · have key := div_le_div_of_neg_den hneg (show -(v - dl) ≤ -(tl - dl) by linarith)
    rwa [neg_div, div_self (ne_of_lt hneg)] at key
  · have key := div_le_div_of_neg_den hneg (show (0 : ℚ) ≤ -(v - dl) by linarith)
    rwa [zero_div] at key

/-- The right ramp value lies in `[0, 1]` whenever its region is inhabited. -/
lemma rampR_bounds {tr dr v : ℚ} (h1 : dr ≤ v) (h2 : v < tr) :
    0 ≤ (v - dr) / (tr - dr) ∧ (v - dr) / (tr - dr) ≤ 1 := by
  have hpos : 0 < tr - dr := by linarith
  constructor
  · exact div_nonneg (by linarith) hpos.le
  · exact (div_le_one hpos).mpr (by linarith)

/-- `calc_f` never returns a value below `-1`, for arbitrary intervals. -/
lemma neg_one_le_calc_f (t d : Interval) (v : ℚ) : -1 ≤ calc_f t d v := by
  unfold calc_f
  split_ifs with h1 h2 h3 h4
  · exact le_refl _
  · exact (rampL_bounds (not_lt.1 h1) h2).1
  · norm_num
  · exact le_trans (by norm_num) (rampR_bounds (not_lt.1 h3) h4).1
  · norm_num

/-- `calc_f` never returns a value above `1`, for arbitrary intervals. -/
lemma calc_f_le_one (t d : Interval) (v : ℚ) : calc_f t d v ≤ 1 := by
  unfold calc_f
  split_ifs with h1 h2 h3 h4
  · norm_num
  · exact le_trans (rampL_bounds (not_lt.1 h1) h2).2 (by norm_num)
  · norm_num
  · exact (rampR_bounds (not_lt.1 h3) h4).2
  · exact le_refl _

/-- Left of the dead zone end, `calc_f` is nonpositive, for arbitrary intervals. -/
lemma calc_f_nonpos (t d : Interval) (v : ℚ) (h : v < d.right) :
    calc_f t d v ≤ 0 := by
  rcases lt_or_le v t.left with h1 | h1
  · rw [calc_f_of_lt_left t d v h1]; norm_num
  rcases lt_or_le v d.left with h2 | h2
  · rw [calc_f_rampL t d v h1 h2]
    exact (rampL_bounds h1 h2).2
  · unfold calc_f
    rw [if_neg (not_lt.2 h1), if_neg (not_lt.2 h2), if_pos h]

/-- Right of the dead zone start, `calc_f` is nonnegative, given that travel
starts no later than the dead zone. -/
lemma calc_f_nonneg (t d : Interval) (v : ℚ) (hl : t.left ≤ d.left)
    (h : d.left ≤ v) : 0 ≤ calc_f t d v := by
  unfold calc_f
  split_ifs with h1 h2 h3 h4
  · exact absurd h1 (not_lt.2 (by linarith))
  · exact absurd h2 (not_lt.2 h)
  · exact le_refl _
  · exact (rampR_bounds (not_lt.1 h3) h4).1
  · norm_num

/-- The checked variant never raises: every ramp branch of `calc_f` is
entered only when its denominator is nonzero, for arbitrary intervals. -/
lemma calc_fChecked_eq (t d : Interval) (v : ℚ) :
    calc_fChecked t d v = .ok (calc_f t d v) := by
  unfold calc_fChecked calc_f
  split_ifs with h1 h2 h3 h4 h5 h6
  · rfl
  · rw [not_lt] at h1; exfalso; linarith
  · rfl
  · rfl
  · rw [not_lt] at h4; exfalso; linarith
  · rfl
  · rfl

/-- C1 (amended): for interval pairs in which the travel interval contains
the dead zone (travel.left ≤ deadzone.left ≤ deadzone.right ≤ travel.right),
`calc_f` returns a value in `[-1, 1]` following the five-region piecewise
law: `-1` below `travel.left`, the linear ramp
`-(value - deadzone.left) / (travel.left - deadzone.left)` on
`[travel.left, deadzone.left)`, exactly `0` on
`[deadzone.left, deadzone.right)`, the linear ramp
`(value - deadzone.right) / (travel.right - deadzone.right)` on
`[deadzone.right, travel.right)`, and `1` from `travel.right` on. -/
theorem calc_f_five_region (t d : Interval) (v : ℚ)
    (hl : t.left ≤ d.left) (hm : d.left ≤ d.right) (hr : d.right ≤ t.right) :
    (-1 ≤ calc_f t d v ∧ calc_f t d v ≤ 1)
    ∧ (v < t.left → calc_f t d v = -1)
    ∧ (t.left ≤ v → v < d.left → calc_f t d v = -(v - d.left) / (t.left - d.left))
    ∧ (d.left ≤ v → v < d.right → calc_f t d v = 0)
    ∧ (d.right ≤ v → v < t.right → calc_f t d v = (v - d.right) / (t.right - d.right))
    ∧ (t.right ≤ v → calc_f t d v = 1) :=
  ⟨⟨neg_one_le_calc_f t d v, calc_f_le_one t d v⟩,
    fun h => calc_f_of_lt_left t d v h,
    fun ha hb => calc_f_rampL t d v ha hb,
    fun ha hb => calc_f_zero t d v hl ha hb,
    fun ha hb => calc_f_rampR t d v hl hm ha hb,
    fun h => calc_f_one t d v hl hm hr h⟩

/-- C1 witness: with travel `[0, 10]` and dead zone `[4, 6]`, the value `5`
lies inside the dead zone and maps to exactly `0`. -/
theorem calc_f_five_region_witness : calc_f ⟨0, 10⟩ ⟨4, 6⟩ 5 = 0 :=
  (calc_f_five_region ⟨0, 10⟩ ⟨4, 6⟩ 5 (by norm_num) (by norm_num)
    (by norm_num)).2.2.2.1 (by norm_num) (by norm_num)

/-- C1 counterexample: the claim quantifies over every pair of intervals,
but when the dead zone is not contained in the travel interval the claimed
regions overlap and the code follows its sequential checks instead.  With
travel `[10, 20]` and dead zone `[0, 30]`, the value `5` satisfies
`deadzone.left ≤ 5 < deadzone.right`, so the claimed law demands `0`, yet
`calc_f` returns `-1`. -/
theorem calc_f_five_region_counterexample :
    ((⟨0, 30⟩ : Interval).left ≤ (5 : ℚ) ∧ (5 : ℚ) < (⟨0, 30⟩ : Interval).right)
    ∧ calc_f ⟨10, 20⟩ ⟨0, 30⟩ 5 = -1 ∧ ((-1 : ℚ) ≠ 0) := by
  refine ⟨⟨by norm_num, by norm_num⟩, ?_, by norm_num⟩
  norm_num [calc_f]

/-- C7 (amended): when `travel.left = deadzone.left` or
`deadzone.right = travel.right`, the ramp whose denominator would be zero
is unreachable (its guard region is empty), so `calc_f` performs no
division by zero: it silently returns a normal position value in `[-1, 1]`
and reports no configuration error at any use. -/
theorem calc_f_degenerate_no_error (t d : Interval) (v : ℚ)
    (h : t.left = d.left ∨ d.right = t.right) :
    ∃ r : ℚ, calc_fChecked t d v = .ok r ∧ -1 ≤ r ∧ r ≤ 1 :=
  ⟨calc_f t d v, calc_fChecked_eq t d v, neg_one_le_calc_f t d v,
    calc_f_le_one t d v⟩

/-- C7 witness: the degenerate configuration travel `[5, 10]`,
dead zone `[5, 8]` (collapsed left ramp) still yields a normal value. -/
theorem calc_f_degenerate_no_error_witness :
    ∃ r : ℚ, calc_fChecked ⟨5, 10⟩ ⟨5, 8⟩ 6 = .ok r ∧ -1 ≤ r ∧ r ≤ 1 :=
  calc_f_degenerate_no_error ⟨5, 10⟩ ⟨5, 8⟩ 6 (Or.inl rfl)

/-- C7 counterexample: at the degenerate configuration
`travel.left = deadzone.left = 5` the claim demands a distinct
configuration error at first use, but the function silently returns the
normal position value `0` and no error of any kind is raised. -/
theorem calc_f_degenerate_counterexample :
    (⟨5, 10⟩ : Interval).left = (⟨5, 8⟩ : Interval).left
    ∧ calc_fChecked ⟨5, 10⟩ ⟨5, 8⟩ 6 = .ok 0 := by
  refine ⟨rfl, ?_⟩
  norm_num [calc_fChecked]

/-- C9: for fixed travel and dead-zone intervals with
`travel.left ≤ deadzone.left ≤ deadzone.right ≤ travel.right`, `calc_f` is
monotonically non-decreasing in its value argument. -/
theorem calc_f_monotone (t d : Interval) (v1 v2 : ℚ)
    (hl : t.left ≤ d.left) (hm : d.left ≤ d.right) (hr : d.right ≤ t.right)
    (hv : v1 ≤ v2) : calc_f t d v1 ≤ calc_f t d v2 := by
  rcases lt_or_le v1 t.left with h1 | h1
  · rw [calc_f_of_lt_left t d v1 h1]
    exact neg_one_le_calc_f t d v2
  rcases le_or_lt t.right v2 with h2 | h2
  · rw [calc_f_one t d v2 hl hm hr h2]
    exact calc_f_le_one t d v1
  rcases lt_or_le v1 d.left with h3 | h3
  · rcases lt_or_le v2 d.left with h4 | h4
    · rw [calc_f_rampL t d v1 h1 h3, calc_f_rampL t d v2 (le_trans h1 hv) h4]
      exact div_le_div_of_neg_den (by linarith) (by linarith)
    · exact le_trans (calc_f_nonpos t d v1 (lt_of_lt_of_le h3 hm))
        (calc_f_nonneg t d v2 hl h4)
  rcases lt_or_le v2 d.right with h4 | h4
  · rw [calc_f_zero t d v1 hl h3 (lt_of_le_of_lt hv h4),
      calc_f_zero t d v2 hl (le_trans h3 hv) h4]
  rcases lt_or_le v1 d.right with h5 | h5
  · rw [calc_f_zero t d v1 hl h3 h5]
    exact calc_f_nonneg t d v2 hl (le_trans h3 hv)
  · rw [calc_f_rampR t d v1 hl hm h5 (lt_of_le_of_lt hv h2),
      calc_f_rampR t d v2 hl hm (le_trans h5 hv) h2]
    exact div_le_div_of_pos_den (by linarith) (by linarith)

/-- C9 witness: with travel `[0, 10]` and dead zone `[4, 6]`, the mapped
position at `2` is no greater than the mapped position at `7`. -/
theorem calc_f_monotone_witness :
    calc_f ⟨0, 10⟩ ⟨4, 6⟩ 2 ≤ calc_f ⟨0, 10⟩ ⟨4, 6⟩ 7 :=
  calc_f_monotone ⟨0, 10⟩ ⟨4, 6⟩ 2 7 (by norm_num) (by norm_num) (by norm_num)
    (by norm_num)

/-- One row of `JoyMouse._BTN_ASSOC` (src/joy.py lines 181-188): a bit
index with its action kind (`"key"` or `"mouse"`) and symbol. -/
structure BtnEntry where
  bit : ℕ
  kind : String
  sym : String
deriving DecidableEq

/-- Mirrors `JoyMouse._BTN_ASSOC` (src/joy.py lines 181-188) in the
insertion order of the Python dict, which is its iteration order. -/
def BTN_ASSOC : List BtnEntry :=
  [⟨0, "key", "Right"⟩, ⟨1, "key", "Up"⟩, ⟨2, "key", "Left"⟩,
    ⟨3, "key", "Down"⟩, ⟨5, "mouse", "3"⟩, ⟨6, "mouse", "1"⟩]

/-- Mirrors the Python expression `mask >> k & 1`. -/
def bitAt (mask k : ℕ) : ℕ := mask >>> k &&& 1

/-- Mirrors the loop body of `JoyMouse._keys` (src/joy.py lines 219-222)
over an association list: per entry, compare the bit of the new mask with
the bit of the stored previous mask and append
`[tp + ("down" if newVal else "up"), val]` when they differ. -/
def keyActionsAux (oldMask btnMask : ℕ) : List BtnEntry → List String
  | [] => []
  | e :: rest =>
    (if bitAt btnMask e.bit ≠ bitAt oldMask e.bit then
      [e.kind ++ (if bitAt btnMask e.bit ≠ 0 then "down" else "up"), e.sym]
    else []) ++ keyActionsAux oldMask btnMask rest

/-- The action list built by `JoyMouse._keys` (src/joy.py lines 216-226)
from the stored previous mask and the new mask. -/
def keyActions (oldMask btnMask : ℕ) : List String :=
  keyActionsAux oldMask btnMask BTN_ASSOC

/-- Mirrors `JoyMouse._keys` as a state transformer: it returns the action
list and the new stored previous mask (`self._old_btn_mask = btnMask`,
src/joy.py line 224). -/
def keysStep (oldMask btnMask : ℕ) : List String × ℕ :=
  (keyActions oldMask btnMask, btnMask)

/-- The edge-detection law as the specification words it: a press action on
a 0-to-1 transition of a bit, a release action on a 1-to-0 transition,
nothing when the bit is unchanged. -/
def edgeEmission (oldBit newBit : ℕ) (e : BtnEntry) : List String :=
  if oldBit = 0 ∧ newBit = 1 then [e.kind ++ "down", e.sym]
  else if oldBit = 1 ∧ newBit = 0 then [e.kind ++ "up", e.sym]
  else []

/-- The spec-side rendering of the whole per-mask edge detection: the
concatenation over the association table of the per-bit emissions. -/
def edgeActionsAux (oldMask btnMask : ℕ) : List BtnEntry → List String
  | [] => []
  | e :: rest =>
    edgeEmission (bitAt oldMask e.bit) (bitAt btnMask e.bit) e
      ++ edgeActionsAux oldMask btnMask rest

lemma bitAt_le_one (mask k : ℕ) : bitAt mask k ≤ 1 :=
  Nat.and_le_right

/-- The source loop body and the spec emission law agree on bit values. -/
lemma emission_eq (b o : ℕ) (e : BtnEntry) (hb : b ≤ 1) (ho : o ≤ 1) :
    (if b ≠ o then [e.kind ++ (if b ≠ 0 then "down" else "up"), e.sym]
      else []) = edgeEmission o b e := by
  interval_cases b <;> interval_cases o <;> simp [edgeEmission]

lemma keyActionsAux_eq (oldMask btnMask : ℕ) (l : List BtnEntry) :
    keyActionsAux oldMask btnMask l = edgeActionsAux oldMask btnMask l := by
  induction l with
  | nil => rfl
  | cons e rest ih =>
    simp only [keyActionsAux, edgeActionsAux, ih,
      emission_eq _ _ e (bitAt_le_one btnMask e.bit) (bitAt_le_one oldMask e.bit)]

/-- C3: for every pair of masks, the stored previous mask is replaced by
the new mask unconditionally; the emitted action list is exactly, per
table entry, a press action on a 0-to-1 transition of that bit, a release
action on a 1-to-0 transition, and nothing when the bit is unchanged; and
the mask sequence 0x00, 0x40, 0x40, 0x00 yields for bit 6 the actions
`["mousedown", "1"]`, then nothing, then `["mouseup", "1"]`. -/
theorem keys_edge_detection :
    (∀ oldMask btnMask : ℕ, (keysStep oldMask btnMask).2 = btnMask)
    ∧ (∀ oldMask btnMask : ℕ,
        keyActions oldMask btnMask = edgeActionsAux oldMask btnMask BTN_ASSOC)
    ∧ keyActions 0x00 0x40 = ["mousedown", "1"]
    ∧ keyActions 0x40 0x40 = []
    ∧ keyActions 0x40 0x00 = ["mouseup", "1"] :=
  ⟨fun _ _ => rfl,
    fun oldMask btnMask => keyActionsAux_eq oldMask btnMask BTN_ASSOC,
    by decide, by decide, by decide⟩

/-- Mirrors `JoyMouse.RELATIVE_MODE` (src/joy.py line 179). -/
def RELATIVE_MODE : ℕ := 0

/-- Mirrors `JoyMouse.ABSOLUTE_MODE` (src/joy.py line 180). -/
def ABSOLUTE_MODE : ℕ := 1

/-- Python truncation toward zero, the behavior of `int()` on a number. -/
def ratTrunc (q : ℚ) : ℤ := Int.tdiv q.num q.den

/-- Mirrors `JoyMouse._mouse` (src/joy.py lines 196-214).  Python operator
precedence makes line 197 parse as
`("mousemove" + "_relative") if mode == RELATIVE_MODE else ""`, so in
absolute mode `param` is the empty string.  In relative mode each
coordinate is multiplied by 10 and cubed; both are then truncated with
`int()`, and the list is emitted unless both integers are zero.  The
stored `screen_size` is never read here. -/
def mouseMove (mode : ℕ) (xPos yPos : ℚ) : List String :=
  let param := if mode = RELATIVE_MODE then "mousemove" ++ "_relative" else ""
  let paramX := if mode = RELATIVE_MODE then (xPos * 10) ^ 3 else xPos
  let paramY := if mode = RELATIVE_MODE then (yPos * 10) ^ 3 else yPos
  let px := ratTrunc paramX
  let py := ratTrunc paramY
  if ¬(px = 0 ∧ py = 0) then [param, "--", toString px, toString py] else []

lemma ratTrunc_zero : ratTrunc 0 = 0 := rfl

lemma ratTrunc_one : ratTrunc 1 = 1 := rfl

lemma ratTrunc_125 : ratTrunc 125 = 125 := rfl

/-- In relative mode the code multiplies each coordinate by 10, cubes it,
truncates, and emits unless both integers are zero. -/
lemma mouseMove_relative_eq (x y : ℚ) :
    mouseMove RELATIVE_MODE x y =
      if ¬(ratTrunc ((x * 10) ^ 3) = 0 ∧ ratTrunc ((y * 10) ^ 3) = 0) then
        ["mousemove_relative", "--", toString (ratTrunc ((x * 10) ^ 3)),
          toString (ratTrunc ((y * 10) ^ 3))]
      else [] := rfl

/-- In absolute mode the code truncates the mapped positions themselves and
the leading token is the empty string. -/
lemma mouseMove_absolute_eq (x y : ℚ) :
    mouseMove ABSOLUTE_MODE x y =
      if ¬(ratTrunc x = 0 ∧ ratTrunc y = 0) then
        ["", "--", toString (ratTrunc x), toString (ratTrunc y)]
      else [] := rfl

/-- C5: in relative mode each mapped coordinate is multiplied by 10, cubed
and truncated to an integer; a relative-move action is emitted exactly when
at least one resulting integer is non-zero; mapped position (0, 0) yields
the empty list and (1/2, 0) yields the action with parameters (125, 0). -/
theorem relative_mode_cubic :
    (∀ x y : ℚ, mouseMove RELATIVE_MODE x y = [] ↔
      (ratTrunc ((x * 10) ^ 3) = 0 ∧ ratTrunc ((y * 10) ^ 3) = 0))
    ∧ (∀ x y : ℚ,
        (ratTrunc ((x * 10) ^ 3) ≠ 0 ∨ ratTrunc ((y * 10) ^ 3) ≠ 0) →
        mouseMove RELATIVE_MODE x y =
          ["mousemove_relative", "--", toString (ratTrunc ((x * 10) ^ 3)),
            toString (ratTrunc ((y * 10) ^ 3))])
    ∧ mouseMove RELATIVE_MODE 0 0 = []
    ∧ mouseMove RELATIVE_MODE (1 / 2) 0 = ["mousemove_relative", "--", "125", "0"] := by
  refine ⟨fun x y => ?_, fun x y h => ?_, ?_, ?_⟩
  · rw [mouseMove_relative_eq]
    by_cases h : ratTrunc ((x * 10) ^ 3) = 0 ∧ ratTrunc ((y * 10) ^ 3) = 0
    · simp [h]
    · simp [h]
  · rw [mouseMove_relative_eq, if_pos (by tauto)]
  · have hx : ((0 : ℚ) * 10) ^ 3 = 0 := by norm_num
    rw [mouseMove_relative_eq, hx, ratTrunc_zero]
    decide
  · have hx : ((1 : ℚ) / 2 * 10) ^ 3 = 125 := by norm_num
    have hy : ((0 : ℚ) * 10) ^ 3 = 0 := by norm_num
    rw [mouseMove_relative_eq, hx, hy, ratTrunc_zero, ratTrunc_125]
    decide

/-- C5 witness: the mapped position (1/2, 0) has a non-zero x integer, so
the relative-move action with parameters (125, 0) is emitted. -/
theorem relative_mode_cubic_witness :
    mouseMove RELATIVE_MODE (1 / 2) 0 =
      ["mousemove_relative", "--", toString (ratTrunc (((1 : ℚ) / 2 * 10) ^ 3)),
        toString (ratTrunc (((0 : ℚ) * 10) ^ 3))] :=
  relative_mode_cubic.2.1 (1 / 2) 0
    (Or.inl (by rw [show ((1 : ℚ) / 2 * 10) ^ 3 = 125 by norm_num, ratTrunc_125]; decide))

/-- C6: evaluating `JoyMouse._mouse` in absolute mode.  For every mapped
pair the emitted list carries the raw truncations of the mapped positions
with no screen-size scaling, and its leading token is the empty string
(Python parses line 197 as `("mousemove" + "_relative") if ... else ""`).
At mapped position (1, 0) the code emits `["", "--", "1", "0"]`, not an
absolute-move action scaled against the configured screen. -/
theorem absolute_mode_unscaled :
    mouseMove ABSOLUTE_MODE 1 0 = ["", "--", "1", "0"]
    ∧ (∀ x y : ℚ, mouseMove ABSOLUTE_MODE x y =
        if ¬(ratTrunc x = 0 ∧ ratTrunc y = 0) then
          ["", "--", toString (ratTrunc x), toString (ratTrunc y)]
        else []) :=
  ⟨by rw [mouseMove_absolute_eq, ratTrunc_one, ratTrunc_zero]; decide,
    fun x y => mouseMove_absolute_eq x y⟩

/-- Mirrors the whole-percent progress check inside both calibration loops
of `Joy.calibrate` (src/joy.py lines 122-124 and 146-148): the iteration
index is tested with `i % (count // 100) == 0`.  In Python a zero modulus
raises `ZeroDivisionError`; the model makes that explicit. -/
def percentCheck (count i : ℕ) : Except PyError Bool :=
  if count / 100 = 0 then .error .zeroDivisionError
  else .ok (i % (count / 100) == 0)

/-- Runs the progress check over the given iteration indices, collecting
the whole percentages printed (`i * 100 // count`, src/joy.py lines 123
and 147). -/
def progressAux (count : ℕ) : List ℕ → Except PyError (List ℕ)
  | [] => .ok []
  | i :: rest => do
    let tick ← percentCheck count i
    let others ← progressAux count rest
    pure (if tick then i * 100 / count :: others else others)

/-- The sequence of progress reports of one calibration sampling loop of
length `count` (`for i in range(count)`, src/joy.py lines 115 and 142). -/
def calibrateProgress (count : ℕ) : Except PyError (List ℕ) :=
  progressAux count (List.range count)

set_option maxRecDepth 10000 in
/-- C2: the claim says the zero modulus is guarded so any positive sample
count completes, but the code has no guard.  With N = 50 (so N // 100 = 0)
the very first loop iteration computes `0 % 0` and raises
`ZeroDivisionError`; with the default N = 500 the loop completes, printing
each whole percent from 0 to 99. -/
theorem calibrate_progress_division_by_zero :
    calibrateProgress 50 = .error .zeroDivisionError
    ∧ calibrateProgress 500 = .ok (List.range 100) := by
  constructor
  · rfl
  · rfl

/-- The calibration state fields of a `Joy` instance; Python initializes
all five class attributes to `None` (src/joy.py lines 41-45). -/
structure JoyState where
  center : Option (List ℚ)
  center_x_interval : Option Interval
  center_y_interval : Option Interval
  x_interval : Option Interval
  y_interval : Option Interval
deriving DecidableEq

/-- The state of a fresh `Joy` object: the five calibration attributes are
the class-level `None`s. -/
def initialState : JoyState := ⟨none, none, none, none, none⟩

/-- A persisted config file, pre-tokenized: one entry per line, one token
per space-separated field; `none` marks a token that the Python builtin
`float()` rejects.  The textual file mechanics are outside the core (spec
section 1), only the five-line layout is modelled. -/
abbrev ConfigContent := List (List (Option ℚ))

/-- One `f.readline().split(" ")` (src/joy.py lines 72-76): reading past
the end of the file yields the empty string, which splits into a single
token that `float()` rejects. -/
def readLineTokens (c : ConfigContent) (i : ℕ) : List (Option ℚ) :=
  c.getD i [none]

/-- `[float(x) for x in line]`: the first unparsable token raises
`ValueError`. -/
def parseFloats : List (Option ℚ) → Except PyError (List ℚ)
  | [] => .ok []
  | none :: _ => .error .valueError
  | some q :: rest => do
    let qs ← parseFloats rest
    pure (q :: qs)

/-- `Interval(*[float(x) for x in line])`: parse the floats of the line,
then build the interval; a wrong argument count raises `TypeError`, which
`Joy.__init__` does not catch. -/
def parseInterval (toks : List (Option ℚ)) : Except PyError Interval := do
  let qs ← parseFloats toks
  match qs with
  | [a, b] => pure ⟨a, b⟩
  | _ => .error .typeError

/-- Mirrors the body of `Joy.load_config` on an existing file (src/joy.py
lines 70-78): five lines are read and parsed in order; the center line is
a float list of any length, the other four lines become intervals. -/
def loadProfile (c : ConfigContent) : Except PyError JoyState := do
  let center ← parseFloats (readLineTokens c 0)
  let cxi ← parseInterval (readLineTokens c 1)
  let cyi ← parseInterval (readLineTokens c 2)
  let xi ← parseInterval (readLineTokens c 3)
  let yi ← parseInterval (readLineTokens c 4)
  pure ⟨some center, some cxi, some cyi, some xi, some yi⟩

/-- Mirrors `Joy.load_config` (src/joy.py lines 65-78).  The argument is
the configured path: `none` models `config_file is None` (return
immediately, state untouched); `some none` a path whose file is absent
(`open` raises `FileNotFoundError`); `some (some c)` a present file with
content `c`. -/
def load_config (configFile : Option (Option ConfigContent)) (s : JoyState) :
    Except PyError JoyState :=
  match configFile with
  | none => .ok s
  | some none => .error .fileNotFoundError
  | some (some c) => loadProfile c

/-- The fixed protocol marker `Joy._PROTOCOL_VERSION = b'b'` (src/joy.py
line 38), as the byte value of the character b. -/
def PROTOCOL_VERSION : ℕ := 98

/-- Sample requests written by one run of `Joy.calibrate` with sample
count `count`: one initial `_get_raw_data` call plus `count` per sampling
loop (src/joy.py lines 106, 116 and 143); each call writes the single
opcode byte 15. -/
def calibrateRequestWrites (count : ℕ) : ℕ := 1 + count + count

/-- Outcome of `Joy.__init__` after a successful handshake: either
`load_config` returned and its state stands, or the code fell back to
`Joy.calibrate`. -/
inductive InitPath where
  | loaded (s : JoyState)
  | recalibrated
deriving DecidableEq

/-- Mirrors `Joy.__init__` (src/joy.py lines 47-63): read one byte from
the peer; if it differs from the protocol marker raise
`RuntimeError("Joy Protocol error")` (the spec error `ProtocolMismatch`);
otherwise try `load_config`, falling back to `Joy.calibrate()` (default
count 500) on `FileNotFoundError` or `ValueError`; any other exception
propagates.  The second component counts the sample-request bytes written
to the serial link during construction. -/
def joyInit (firstByte : ℕ) (configFile : Option (Option ConfigContent)) :
    Except PyError InitPath × ℕ :=
  if firstByte ≠ PROTOCOL_VERSION then
    (.error (.runtimeError "Joy Protocol error"), 0)
  else
    match load_config configFile initialState with
    | .ok s => (.ok (.loaded s), 0)
    | .error .fileNotFoundError => (.ok .recalibrated, calibrateRequestWrites 500)
    | .error .valueError => (.ok .recalibrated, calibrateRequestWrites 500)
    | .error e => (.error e, 0)

/-- C4: when the persisted calibration file is absent, and likewise for
any file content whose numeric parse raises `ValueError`, startup falls
back to the full calibration procedure and surfaces no fatal error. -/
theorem config_fallback :
    joyInit PROTOCOL_VERSION (some none) = (.ok .recalibrated, calibrateRequestWrites 500)
    ∧ ∀ c : ConfigContent, loadProfile c = .error .valueError →
        joyInit PROTOCOL_VERSION (some (some c)) =
          (.ok .recalibrated, calibrateRequestWrites 500) := by
  constructor
  · rfl
  · intro c hc
    simp [joyInit, load_config, hc, PROTOCOL_VERSION]

/-- C4 witness: a one-line file whose single token is unparsable makes the
load raise `ValueError`, and startup recalibrates. -/
theorem config_fallback_witness :
    joyInit PROTOCOL_VERSION (some (some [[none]])) =
      (.ok .recalibrated, calibrateRequestWrites 500) :=
  config_fallback.2 [[none]] rfl

/-- C8: if the first byte read from the peer differs from the protocol
marker, construction fails with the `ProtocolMismatch` error (raised as
`RuntimeError("Joy Protocol error")`) and zero sample-request bytes were
written; the error is returned as a failure, not retried. -/
theorem protocol_mismatch_fatal (b : ℕ) (hb : b ≠ PROTOCOL_VERSION)
    (configFile : Option (Option ConfigContent)) :
    joyInit b configFile = (.error (.runtimeError "Joy Protocol error"), 0) := by
  simp [joyInit, hb]

/-- C8 witness: handshake byte 0 is rejected before any request. -/
theorem protocol_mismatch_fatal_witness :
    joyInit 0 none = (.error (.runtimeError "Joy Protocol error"), 0) :=
  protocol_mismatch_fatal 0 (by decide) none

/-- C10: constructed with `config_file = None`, `load_config` returns
immediately without raising, the calibration fallback is never invoked
(the outcome is `loaded` with zero sample requests written), and all five
calibration attributes remain `None`. -/
theorem no_config_no_calibration :
    joyInit PROTOCOL_VERSION none = (.ok (.loaded initialState), 0)
    ∧ load_config none initialState = .ok initialState
    ∧ initialState.center = none
    ∧ initialState.center_x_interval = none
    ∧ initialState.center_y_interval = none
    ∧ initialState.x_interval = none
    ∧ initialState.y_interval = none :=
  ⟨rfl, rfl, rfl, rfl, rfl, rfl, rfl⟩

end ArduinoJoy
